import Mathlib

/-!
Shallow embedding of the psdatahelper API client core (src/psdatahelper/api.py).

Modelling conventions:
- A pandas DataFrame is a column list plus a list of rows; each row is an
  association list from column name to a scalar cell value (string, integer,
  or null/NaN).
- The network environment is passed explicitly: each bulk operation receives
  the list of HTTP responses its row-wise requests would observe, in order.
- Python exceptions that escape a function are modelled with Except; code
  that cannot raise returns plain values.
- Log side effects are modelled as a list of (level, message) entries.  Log
  messages keep their identifying text from the source; embedded DataFrame
  dumps and Python repr details are elided, and apostrophes in source
  messages are rendered as plain words.
- A parsed JSON body is modelled at the shape the relevant code path reads:
  for 403 handling, the errors collection as a list of association-list
  entries (a missing body or missing errors key is `none`); for the count
  endpoint, an optional count value (`none` = body not valid JSON).
-/

namespace Psdh

/-- Scalar cell values of a tabular record set: strings, integers, or
null/NaN (pandas missing value). -/
inductive CellVal where
  | vstr : String → CellVal
  | vnum : Int → CellVal
  | vnull : CellVal
deriving DecidableEq

/-- One row of a DataFrame: an association list from column name to value. -/
abbrev Row := List (String × CellVal)

/-- A pandas DataFrame: a column schema plus rows. -/
structure DataFrame where
  cols : List String
  rows : List Row
deriving DecidableEq

/-- pd.DataFrame() — the empty DataFrame. -/
def empty_df : DataFrame := ⟨[], []⟩

/-- Log levels used by the Log collaborator. -/
inductive LogLevel where
  | debug
  | error
deriving DecidableEq

/-- One logged message. -/
abbrev LogEntry := LogLevel × String

/-- An outbound HTTP request as built by API._request callers. -/
structure Request where
  method : String
  resource : String
  read_only : Bool
  suppress_log : Bool
  body : Option String
deriving DecidableEq

/-- An HTTP response as observed by the client.  `errors_json` is the parsed
`errors` collection of the body for 403 handling: `none` models a body that
is not valid JSON or has no `errors` key (response.json()[...] raises);
each entry is the association list of the string fields of the error object. -/
structure Response where
  status_code : Nat
  text : String
  errors_json : Option (List (List (String × String)))
deriving DecidableEq

/-- Association-list lookup (Python dict access, first match). -/
def lookupStr : List (String × String) → String → Option String
  | [], _ => none
  | p :: rest, k => if p.1 = k then some p.2 else lookupStr rest k

/-- Cell lookup in a row (pandas row[col]); `none` models a KeyError. -/
def lookupCell : Row → String → Option CellVal
  | [], _ => none
  | p :: rest, k => if p.1 = k then some p.2 else lookupCell rest k

/-- pandas `row[col] = v`: overwrite the first occurrence in place, else
append the new column at the end. -/
def set_cell : Row → String → CellVal → Row
  | [], k, v => [(k, v)]
  | p :: rest, k, v => if p.1 = k then (k, v) :: rest else p :: set_cell rest k v

/-- Rendering of a cell in an f-string URL segment (str(row[col])). -/
def cell_str : CellVal → String
  | .vstr s => s
  | .vnum n => toString n
  | .vnull => "nan"

/-- The access-request directive string built at api.py:132-133. -/
def directive_str (table_field_resource fieldName level : String) : String :=
  "\n<field table=\"" ++ table_field_resource ++ "\" field=\"" ++ fieldName ++
    "\" access=\"" ++ level ++ "\"/>"

/-- The for-loop of API._access_requests_parse (api.py:130-133): append one
directive per error entry; a missing `resource` or `field` key raises
KeyError, which aborts the loop (the Bool result records whether the
exception handler ran). -/
def directives_loop (level : String) :
    List (List (String × String)) → List String × Bool
  | [] => ([], false)
  | e :: rest =>
    match lookupStr e "resource", lookupStr e "field" with
    | some r, some f =>
      let out := directives_loop level rest
      (directive_str r f level :: out.1, out.2)
    | some _, none => ([], true)
    | none, _ => ([], true)

/-- Lexicographic code-point comparison on character lists, the order
Python uses to compare strings. -/
def chars_le : List Char → List Char → Bool
  | [], _ => true
  | _ :: _, [] => false
  | a :: as, b :: bs =>
    if a.toNat = b.toNat then chars_le as bs
    else decide (a.toNat < b.toNat)

/-- Python string comparison a <= b: code-point lexicographic order. -/
def py_str_le (a b : String) : Prop := chars_le a.data b.data = true

instance : DecidableRel py_str_le :=
  fun a b => inferInstanceAs (Decidable (chars_le a.data b.data = true))

/-- Python list.sort() on strings: stable ascending sort in code-point
lexicographic order. -/
def sortStrings (l : List String) : List String :=
  List.insertionSort py_str_le l

/-- API._access_requests_parse (api.py:116-149): on a 403, build directive
strings from the errors collection of the body (logging a parse error and keeping
what was built so far if an exception occurs), sort them, and return them;
on any other status, log an error and return the empty list. -/
def access_requests_parse (resp : Response) (read_only : Bool) :
    List String × List LogEntry :=
  if resp.status_code = 403 then
    let level := if read_only then "ViewOnly" else "FullAccess"
    let built :=
      match resp.errors_json with
      | none => (([] : List String), true)
      | some entries => directives_loop level entries
    let plogs : List LogEntry :=
      if built.2 then [(LogLevel.error, "Error parsing access requests")] else []
    (sortStrings built.1, plogs)
  else
    ([], [(LogLevel.error, "Response status code is not 403\n\t" ++
      toString resp.status_code ++ " - " ++ resp.text)])

/-- API._response_log_status_code (api.py:151-184): per-status error log
lines for unsuccessful responses. -/
def response_log_status_code (resource method : String) (resp : Response) :
    List LogEntry :=
  if resp.status_code = 400 then
    [(LogLevel.error, "Bad request to " ++ resource ++ ":\n\t" ++ resp.text)]
  else if resp.status_code = 401 then
    [(LogLevel.error, "Unauthorized request to " ++ resource ++ ":\n\t" ++ resp.text)]
  else if resp.status_code = 404 then
    [(LogLevel.error, "Resource not found: " ++ resource)]
  else if resp.status_code = 405 then
    [(LogLevel.error, "Method \"" ++ method ++ "\" not allowed for " ++ resource)]
  else if resp.status_code = 409 then
    [(LogLevel.error, "Conflict with " ++ resource ++ ":\n\t" ++ resp.text)]
  else if resp.status_code = 415 then
    [(LogLevel.error, "Unsupported media type for " ++ resource ++ ":\n\t" ++ resp.text)]
  else if resp.status_code = 500 then
    [(LogLevel.error, "Internal server error for " ++ resource ++ ":\n\t" ++ resp.text)]
  else if resp.status_code = 509 then
    [(LogLevel.error, "Resource throttling currently in place for " ++ resource ++
      ":\n\t" ++ resp.text)]
  else []

/-- API._request (api.py:186-210), given the response the network returns:
yields the attached access-request directives (403 only) and the log entries
emitted while dispatching. -/
def request_dispatch (plugin : String) (req : Request) (resp : Response) :
    List String × List LogEntry :=
  if resp.status_code = 403 then
    let parsed := access_requests_parse resp req.read_only
    let alogs : List LogEntry :=
      if parsed.1 ≠ [] ∧ req.suppress_log = false then
        [(LogLevel.error, "Plugin " ++ plugin ++
          " does not have access to one or more of the requested fields.\n" ++
          "Access requests to add to the plugin:" ++ String.join parsed.1)]
      else []
    (parsed.1, parsed.2 ++ alogs)
  else if resp.status_code ≠ 200 ∧ req.suppress_log = false then
    ([], response_log_status_code req.resource req.method resp)
  else
    ([], [])

/-- Serialization of a cell in pandas Series.to_json(). -/
def cell_to_json : CellVal → String
  | .vstr s => "\"" ++ s ++ "\""
  | .vnum n => toString n
  | .vnull => "null"

/-- pandas Series.to_json(): a JSON object of the column/value pairs of the row. -/
def row_to_json (row : Row) : String :=
  "\x7b" ++ String.intercalate ","
    (row.map (fun p => "\"" ++ p.1 ++ "\":" ++ cell_to_json p.2)) ++ "\x7d"

/-- pandas Series.dropna(): remove null-valued entries (a present empty
string is not null and is kept). -/
def dropna_row : Row → Row
  | [] => []
  | p :: rest =>
    if p.2 = CellVal.vnull then dropna_row rest else p :: dropna_row rest

/-- pandas fillna with the empty string on one cell: replace null by it. -/
def fillna_cell : CellVal → CellVal
  | .vnull => .vstr ""
  | v => v

/-- pandas DataFrame.fillna with the empty string applied to one row. -/
def fillna_row (row : Row) : Row :=
  row.map (fun p => (p.1, fillna_cell p.2))

/-- pandas Series.drop(label): remove the labelled entry from the row. -/
def drop_key : Row → String → Row
  | [], _ => []
  | p :: rest, k => if p.1 = k then drop_key rest k else p :: drop_key rest k

/-- The write-payload wrapper f-string at api.py:635 and api.py:734. -/
def tables_wrap (table_name row_json : String) : String :=
  "\x7b\"tables\":\x7b\"" ++ table_name ++ "\":" ++ row_json ++ "\x7d\x7d"

/-- Insert payload (api.py:631-635): row.dropna().to_json() wrapped under
tables/table. -/
def insert_row_payload (table_name : String) (row : Row) : String :=
  tables_wrap table_name (row_to_json (dropna_row row))

/-- Update payload (api.py:730-734): row.drop(id_column_name).to_json()
wrapped under tables/table (the row reaching this point has already been
through DataFrame.fillna with the empty string at api.py:720). -/
def update_row_payload (table_name id_column_name : String) (row : Row) : String :=
  tables_wrap table_name (row_to_json (drop_key row id_column_name))

/-- Outcome annotation (api.py:649-650 etc.): store the response status code
and text on the row as two columns. -/
def annotate_row (row : Row) (resp : Response) : Row :=
  set_cell (set_cell row "response_status_code" (CellVal.vnum (Int.ofNat resp.status_code)))
    "response_text" (CellVal.vstr resp.text)

/-- The response_status_code column of a result row. -/
def row_status (row : Row) : Option CellVal :=
  lookupCell row "response_status_code"

/-- Result column schema after annotation: pandas appends the two outcome
columns at the end when not already present. -/
def annotate_cols (cols : List String) : List String :=
  let c1 := if cols.contains "response_status_code" then cols
            else cols ++ ["response_status_code"]
  if c1.contains "response_text" then c1 else c1 ++ ["response_text"]

/-- Aggregate outcome of a row-processing loop: the annotated rows (or the
Python exception that escaped), the requests actually issued in order, the
log entries, and the final access_requests_needed flag. -/
structure LoopOut where
  rows : Except String (List Row)
  requests : List Request
  logs : List LogEntry
  arn : Bool

/-- The insert_records closure applied row by row (api.py:627-656): one POST
per row, suppress_log set after the first request, access_requests_needed
latched on a 403, the row annotated with the outcome. -/
def insert_rows_go (plugin table_name : String) :
    List (Row × Response) → Bool → Bool → LoopOut
  | [], _, arn => ⟨.ok [], [], [], arn⟩
  | (row, resp) :: rest, sl, arn =>
    let req : Request :=
      ⟨"post", "/ws/schema/table/" ++ table_name, false, sl,
        some (insert_row_payload table_name row)⟩
    let d := request_dispatch plugin req resp
    let arn2 := if arn = false ∧ resp.status_code = 403 then true else arn
    let row2 := annotate_row row resp
    let out := insert_rows_go plugin table_name rest true arn2
    ⟨out.rows.map (fun rs => row2 :: rs), req :: out.requests, d.2 ++ out.logs, out.arn⟩

/-- The update_records closure applied row by row (api.py:726-754): the id
cell is read to build the body and URL (a missing id column raises KeyError
before the request); one PUT per row, suppress_log set after the first
request, the row annotated with the outcome. -/
def update_rows_go (plugin table_name id_column_name : String) :
    List (Row × Response) → Bool → Bool → LoopOut
  | [], _, arn => ⟨.ok [], [], [], arn⟩
  | (row, resp) :: rest, sl, arn =>
    match lookupCell row id_column_name with
    | none => ⟨.error ("KeyError: " ++ id_column_name), [], [], arn⟩
    | some idv =>
      let req : Request :=
        ⟨"put", "/ws/schema/table/" ++ table_name ++ "/" ++ cell_str idv, false, sl,
          some (update_row_payload table_name id_column_name row)⟩
      let d := request_dispatch plugin req resp
      let arn2 := if resp.status_code = 403 ∧ arn = false then true else arn
      let row2 := annotate_row row resp
      let out := update_rows_go plugin table_name id_column_name rest true arn2
      ⟨out.rows.map (fun rs => row2 :: rs), req :: out.requests, d.2 ++ out.logs, out.arn⟩

/-- The delete_records closure applied row by row (api.py:867-889): the id
cell is read while building the resource URL (a missing id column raises
KeyError before the request is sent); one DELETE per row, suppress_log set
after the first request, the row annotated with the outcome. -/
def delete_rows_go (plugin table_name id_column_name : String) :
    List (Row × Response) → Bool → Bool → LoopOut
  | [], _, arn => ⟨.ok [], [], [], arn⟩
  | (row, resp) :: rest, sl, arn =>
    match lookupCell row id_column_name with
    | none => ⟨.error ("KeyError: " ++ id_column_name), [], [], arn⟩
    | some idv =>
      let req : Request :=
        ⟨"delete", "/ws/schema/table/" ++ table_name ++ "/" ++ cell_str idv, false, sl,
          none⟩
      let d := request_dispatch plugin req resp
      let arn2 := if resp.status_code = 403 ∧ arn = false then true else arn
      let row2 := annotate_row row resp
      let out := delete_rows_go plugin table_name id_column_name rest true arn2
      ⟨out.rows.map (fun rs => row2 :: rs), req :: out.requests, d.2 ++ out.logs, out.arn⟩

/-- Outcome of a public bulk operation: the returned DataFrame (or the
escaped Python exception), the requests issued, and the log entries. -/
structure OpOutcome where
  result : Except String DataFrame
  requests : List Request
  logs : List LogEntry

/-- API.table_insert_records (api.py:588-672). -/
def table_insert_records (api_connected : Bool) (plugin table_name : String)
    (records : DataFrame) (responses : List Response) : OpOutcome :=
  if api_connected = false then
    ⟨.ok empty_df, [], [(LogLevel.error, "Records not inserted into " ++ table_name ++
      " because the API is not connected")]⟩
  else if records.rows.isEmpty then
    ⟨.ok empty_df, [], [(LogLevel.debug, "Input DataFrame is empty. No records processed.")]⟩
  else
    let pre : LogEntry := (LogLevel.debug, "Inserting records into " ++ table_name)
    let out := insert_rows_go plugin table_name (records.rows.zip responses) false false
    match out.rows with
    | .error e => ⟨.error e, out.requests, pre :: out.logs⟩
    | .ok rows2 =>
      let errs := rows2.filter (fun r => row_status r ≠ some (CellVal.vnum 200))
      let endLogs : List LogEntry :=
        if errs.isEmpty = false then
          if out.arn = false then
            [(LogLevel.error, "Errors inserting records into " ++ table_name)]
          else []
        else
          [(LogLevel.debug, toString rows2.length ++
            " record(s) successfully inserted into " ++ table_name)]
      ⟨.ok ⟨annotate_cols records.cols, rows2⟩, out.requests, pre :: out.logs ++ endLogs⟩

/-- API.table_update_records (api.py:674-770): connected and non-empty
checks, the id-column schema check, the DataFrame-wide fillna, then the row loop
and batch-end logging. -/
def table_update_records (api_connected : Bool) (plugin table_name id_column_name : String)
    (records : DataFrame) (responses : List Response) : OpOutcome :=
  if api_connected = false then
    ⟨.ok empty_df, [], [(LogLevel.error, "Records not updated in " ++ table_name ++
      " because the API is not connected")]⟩
  else if records.rows.isEmpty then
    ⟨.ok empty_df, [], [(LogLevel.debug, "Input DataFrame is empty. No records processed.")]⟩
  else if records.cols.contains id_column_name = false then
    ⟨.ok empty_df, [], [(LogLevel.error, "ID column " ++ id_column_name ++
      " not found in records. No records updated.")]⟩
  else
    let pre : LogEntry := (LogLevel.debug, "Updating records in " ++ table_name)
    let filled := records.rows.map fillna_row
    let out := update_rows_go plugin table_name id_column_name (filled.zip responses) false false
    match out.rows with
    | .error e => ⟨.error e, out.requests, pre :: out.logs⟩
    | .ok rows2 =>
      let errs := rows2.filter (fun r => row_status r ≠ some (CellVal.vnum 200))
      let endLogs : List LogEntry :=
        if errs.isEmpty = false then
          if out.arn = false then
            [(LogLevel.error, "Errors updating records in " ++ table_name)]
          else []
        else
          [(LogLevel.debug, toString rows2.length ++
            " records successfully updated in " ++ table_name)]
      ⟨.ok ⟨annotate_cols records.cols, rows2⟩, out.requests, pre :: out.logs ++ endLogs⟩

/-- The errors partition of table_delete_records (api.py:892): result rows
whose status is not 204. -/
def delete_errors_rows (results : List Row) : List Row :=
  results.filter (fun r => row_status r ≠ some (CellVal.vnum 204))

/-- The failed partition of table_delete_records (api.py:895): non-204 rows
whose status is also not 404. -/
def delete_failed_rows (results : List Row) : List Row :=
  (delete_errors_rows results).filter (fun r => row_status r ≠ some (CellVal.vnum 404))

/-- The not_found partition of table_delete_records (api.py:896): non-204
rows whose status is 404. -/
def delete_not_found_rows (results : List Row) : List Row :=
  (delete_errors_rows results).filter (fun r => row_status r = some (CellVal.vnum 404))

/-- API.table_delete_records (api.py:826-916): no id-column schema check is
performed; the row loop, then the errors/failed/not_found partition and the
batch-end logging (not_found reported at debug level). -/
def table_delete_records (api_connected : Bool) (plugin table_name id_column_name : String)
    (records : DataFrame) (responses : List Response) : OpOutcome :=
  if api_connected = false then
    ⟨.ok empty_df, [], [(LogLevel.error, "Records not deleted from " ++ table_name ++
      " because the API is not connected")]⟩
  else if records.rows.isEmpty then
    ⟨.ok empty_df, [], [(LogLevel.debug, "Input DataFrame is empty. No records processed.")]⟩
  else
    let pre : LogEntry := (LogLevel.debug, "Deleting records from " ++ table_name)
    let out := delete_rows_go plugin table_name id_column_name (records.rows.zip responses) false false
    match out.rows with
    | .error e => ⟨.error e, out.requests, pre :: out.logs⟩
    | .ok rows2 =>
      let failed := delete_failed_rows rows2
      let not_found := delete_not_found_rows rows2
      let nfLogs : List LogEntry :=
        if not_found.isEmpty = false then
          [(LogLevel.debug, "Records not found in " ++ table_name)]
        else []
      let endLogs : List LogEntry :=
        if failed.isEmpty = false then
          if out.arn = false then
            [(LogLevel.error, "Errors deleting records from " ++ table_name)]
          else []
        else
          [(LogLevel.debug, toString (rows2.length - not_found.length) ++
            " records successfully deleted from " ++ table_name),
           (LogLevel.debug, toString not_found.length ++ " records not found in " ++ table_name)]
      ⟨.ok ⟨annotate_cols records.cols, rows2⟩, out.requests,
        pre :: out.logs ++ nfLogs ++ endLogs⟩

/-- API.table_delete_record (api.py:772-824): 204 and 404 return true; any
other non-403 status returns false; a 403 reaches no return statement, so
the function yields Python None (modelled as Option.none). -/
def table_delete_record (api_connected : Bool) (plugin table_name record_id : String)
    (resp : Response) : Option Bool × List LogEntry :=
  if api_connected = false then
    (some false, [(LogLevel.error, "Record " ++ record_id ++ " not deleted from " ++
      table_name ++ " because the API is not connected")])
  else
    let pre : LogEntry := (LogLevel.debug, "Deleting record from " ++ table_name)
    let req : Request :=
      ⟨"delete", "/ws/schema/table/" ++ table_name ++ "/" ++ record_id, false, false, none⟩
    let d := request_dispatch plugin req resp
    if resp.status_code = 204 then
      (some true, pre :: d.2 ++ [(LogLevel.debug, "Record successfully deleted from " ++ table_name)])
    else if resp.status_code = 404 then
      (some true, pre :: d.2 ++ [(LogLevel.debug, "Record " ++ record_id ++ " not found in " ++ table_name)])
    else if resp.status_code ≠ 403 then
      (some false, pre :: d.2 ++ [(LogLevel.error, "Error deleting record from " ++ table_name ++
        ": " ++ toString resp.status_code ++ " - " ++ resp.text)])
    else
      (none, pre :: d.2)

/-- A response to the record-count endpoint: `body_json` is the result of
response.json() — `none` models a body that is not valid JSON (the call
raises json.JSONDecodeError), `some none` a JSON body without a `count`
key, `some (some n)` a body carrying a count. -/
structure CountResponse where
  status_code : Nat
  text : String
  body_json : Option (Option Int)
deriving DecidableEq

/-- API.table_get_record_count (api.py:532-585): response.json() is called
at api.py:565, before the status-code check at api.py:568, so an invalid
JSON body propagates the decode exception regardless of the status. -/
def table_get_record_count (api_connected : Bool) (table_name : String)
    (resp : CountResponse) : Except String Int × List LogEntry :=
  if api_connected = false then
    (.ok 0, [(LogLevel.error, "Record count not retrieved from " ++ table_name ++
      " because the API is not connected")])
  else
    let pre : LogEntry := (LogLevel.debug, "Getting record count from " ++ table_name)
    match resp.body_json with
    | none => (.error "JSONDecodeError", [pre])
    | some body =>
      if resp.status_code ≠ 200 then
        (.ok 0, [pre, (LogLevel.error, "Error getting record count from " ++ table_name ++
          ": " ++ toString resp.status_code ++ " - " ++ resp.text)])
      else
        match body with
        | some n => (.ok n, [pre])
        | none =>
          (.ok 0, [pre, (LogLevel.debug, "No record count found in response from " ++
            table_name ++ " with the provided query expression")])

/-- json.dumps of a flat string-valued parameter dict (default separators). -/
def json_dumps_params (ps : List (String × String)) : String :=
  "\x7b" ++ String.intercalate ", "
    (ps.map (fun p => "\"" ++ p.1 ++ "\": \"" ++ p.2 ++ "\"")) ++ "\x7d"

/-- Fully qualified PowerQuery name (api.py:361-365): prefixed with the
configured namespace and a dot when the namespace is non-empty. -/
def pq_full_name (pq_namespace pq_name : String) : String :=
  if pq_namespace ≠ "" then pq_namespace ++ "." ++ pq_name else pq_name

/-- The request built by API.pq_run (api.py:371-381): a POST to
/ws/schema/query/{full name}?pagesize=0, carrying json.dumps of the
parameters as body exactly when the parameter dict is non-empty. -/
def pq_run_request (pq_namespace pq_name : String)
    (pq_parameters : List (String × String)) : Request :=
  if pq_parameters.length > 0 then
    ⟨"post", "/ws/schema/query/" ++ pq_full_name pq_namespace pq_name ++ "?pagesize=0",
      true, false, some (json_dumps_params pq_parameters)⟩
  else
    ⟨"post", "/ws/schema/query/" ++ pq_full_name pq_namespace pq_name ++ "?pagesize=0",
      true, false, none⟩

/-- Well-formedness of one entry of a 403 errors collection: both the
`resource` and the `field` key are present (so the loop body does not
raise KeyError on it). -/
def entry_wf (e : List (String × String)) : Bool :=
  (lookupStr e "resource").isSome && (lookupStr e "field").isSome

/-- The directive a well-formed error entry produces. -/
def mk_directive (level : String) (e : List (String × String)) : String :=
  directive_str ((lookupStr e "resource").getD "") ((lookupStr e "field").getD "") level

theorem chars_le_total : ∀ as bs : List Char, chars_le as bs = true ∨ chars_le bs as = true
  | [], _ => Or.inl rfl
  | _ :: _, [] => Or.inr rfl
  | a :: as, b :: bs => by
    by_cases h : a.toNat = b.toNat
    · have h2 : b.toNat = a.toNat := h.symm
      simp only [chars_le, if_pos h, if_pos h2]
      exact chars_le_total as bs
    · have h2 : ¬ b.toNat = a.toNat := fun e => h e.symm
      simp only [chars_le, if_neg h, if_neg h2, decide_eq_true_eq]
      omega

theorem chars_le_trans : ∀ as bs cs : List Char,
    chars_le as bs = true → chars_le bs cs = true → chars_le as cs = true
  | [], _, _, _, _ => rfl
  | _ :: _, [], _, h1, _ => by simp [chars_le] at h1
  | _ :: _, _ :: _, [], _, h2 => by simp [chars_le] at h2
  | a :: as, b :: bs, c :: cs, h1, h2 => by
    by_cases hab : a.toNat = b.toNat <;> by_cases hbc : b.toNat = c.toNat
    · have hac : a.toNat = c.toNat := hab.trans hbc
      simp only [chars_le, if_pos hab] at h1
      simp only [chars_le, if_pos hbc] at h2
      simp only [chars_le, if_pos hac]
      exact chars_le_trans as bs cs h1 h2
    · simp only [chars_le, if_neg hbc, decide_eq_true_eq] at h2
      have hac : ¬ a.toNat = c.toNat := by omega
      simp only [chars_le, if_neg hac, decide_eq_true_eq]
      omega
    · simp only [chars_le, if_neg hab, decide_eq_true_eq] at h1
      have hac : ¬ a.toNat = c.toNat := by omega
      simp only [chars_le, if_neg hac, decide_eq_true_eq]
      omega
    · simp only [chars_le, if_neg hab, decide_eq_true_eq] at h1
      simp only [chars_le, if_neg hbc, decide_eq_true_eq] at h2
      have hac : ¬ a.toNat = c.toNat := by omega
      simp only [chars_le, if_neg hac, decide_eq_true_eq]
      omega

theorem directives_loop_eq (level : String) : ∀ entries,
    directives_loop level entries =
      ((entries.takeWhile entry_wf).map (mk_directive level), !entries.all entry_wf)
  | [] => rfl
  | e :: rest => by
    cases hr : lookupStr e "resource" with
    | none => simp [directives_loop, hr, entry_wf, List.takeWhile_cons]
    | some r =>
      cases hf : lookupStr e "field" with
      | none => simp [directives_loop, hr, hf, entry_wf, List.takeWhile_cons]
      | some f =>
        simp [directives_loop, hr, hf, entry_wf, List.takeWhile_cons,
          directives_loop_eq level rest, mk_directive]

theorem takeWhile_eq_self_of_all {α : Type} (p : α → Bool) :
    ∀ l : List α, l.all p = true → l.takeWhile p = l
  | [], _ => rfl
  | a :: l, h => by
    simp only [List.all_cons, Bool.and_eq_true] at h
    simp [List.takeWhile_cons, h.1, takeWhile_eq_self_of_all p l h.2]

theorem dropna_row_eq_filter : ∀ row : Row,
    dropna_row row = row.filter (fun p => p.2 ≠ CellVal.vnull)
  | [] => rfl
  | p :: rest => by
    by_cases h : p.2 = CellVal.vnull <;>
      simp [dropna_row, h, List.filter_cons, dropna_row_eq_filter rest]

theorem drop_key_eq_filter : ∀ (row : Row) (k : String),
    drop_key row k = row.filter (fun p => p.1 ≠ k)
  | [], _ => rfl
  | p :: rest, k => by
    by_cases h : p.1 = k <;>
      simp [drop_key, h, List.filter_cons, drop_key_eq_filter rest k]

theorem drop_key_fillna_row (row : Row) (k : String) :
    drop_key (fillna_row row) k = (row.filter (fun p => p.1 ≠ k)).map (fun p => (p.1, fillna_cell p.2)) := by
  rw [show drop_key (fillna_row row) k = (fillna_row row).filter (fun p => p.1 ≠ k) from
    drop_key_eq_filter (fillna_row row) k]
  unfold fillna_row
  rw [List.filter_map]
  rfl

theorem lookupCell_set_cell_self : ∀ (r : Row) (k : String) (v : CellVal),
    lookupCell (set_cell r k v) k = some v
  | [], k, v => by simp [set_cell, lookupCell]
  | p :: rest, k, v => by
    by_cases h : p.1 = k
    · simp [set_cell, if_pos h, lookupCell]
    · simp [set_cell, if_neg h, lookupCell, if_neg h, lookupCell_set_cell_self rest k v]

theorem lookupCell_set_cell_ne : ∀ (r : Row) (k k2 : String) (v : CellVal), k ≠ k2 →
    lookupCell (set_cell r k2 v) k = lookupCell r k
  | [], k, k2, v, h => by
    have h4 : ¬ k2 = k := Ne.symm h
    simp [set_cell, lookupCell, h4]
  | p :: rest, k, k2, v, h => by
    have h4 : ¬ k2 = k := Ne.symm h
    by_cases h2 : p.1 = k2
    · have hpk : ¬ p.1 = k := by
        rw [h2]
        exact h4
      simp [set_cell, if_pos h2, lookupCell, h4, hpk]
    · by_cases h3 : p.1 = k
      · simp [set_cell, if_neg h2, lookupCell, if_pos h3]
      · simp [set_cell, if_neg h2, lookupCell, if_neg h3,
          lookupCell_set_cell_ne rest k k2 v h]

theorem annotate_row_status (r : Row) (resp : Response) :
    row_status (annotate_row r resp) = some (CellVal.vnum (Int.ofNat resp.status_code)) := by
  unfold annotate_row row_status
  rw [lookupCell_set_cell_ne _ _ _ _ (by decide), lookupCell_set_cell_self]

theorem annotate_row_text (r : Row) (resp : Response) :
    lookupCell (annotate_row r resp) "response_text" = some (CellVal.vstr resp.text) :=
  lookupCell_set_cell_self _ _ _

theorem lookupCell_fillna (k : String) : ∀ r : Row,
    lookupCell (fillna_row r) k = (lookupCell r k).map fillna_cell
  | [] => rfl
  | p :: rest => by
    have ih := lookupCell_fillna k rest
    by_cases h : p.1 = k <;> simp_all [fillna_row, lookupCell, h]

theorem lookupCell_eq_none (k : String) : ∀ r : Row, k ∉ r.map Prod.fst →
    lookupCell r k = none
  | [], _ => rfl
  | p :: rest, h => by
    simp only [List.map_cons, List.mem_cons] at h
    push_neg at h
    simp [lookupCell, if_neg (fun e : p.1 = k => h.1 e.symm),
      lookupCell_eq_none k rest h.2]

theorem lookupCell_isSome (k : String) : ∀ r : Row, k ∈ r.map Prod.fst →
    (lookupCell r k).isSome = true
  | p :: rest, h => by
    by_cases he : p.1 = k
    · simp [lookupCell, if_pos he]
    · simp only [List.map_cons, List.mem_cons] at h
      rcases h with h | h
      · exact absurd h.symm he
      · simp [lookupCell, if_neg he, lookupCell_isSome k rest h]

theorem insert_rows_go_rows (plugin t : String) :
    ∀ (pairs : List (Row × Response)) (sl arn : Bool),
    (insert_rows_go plugin t pairs sl arn).rows =
      .ok (pairs.map (fun p => annotate_row p.1 p.2))
  | [], _, _ => rfl
  | (row, resp) :: rest, sl, arn => by
    rw [insert_rows_go]
    dsimp only []
    rw [insert_rows_go_rows plugin t rest true
      (if arn = false ∧ resp.status_code = 403 then true else arn)]
    rfl

theorem insert_rows_go_suppress (plugin t : String) :
    ∀ (pairs : List (Row × Response)) (sl arn : Bool), pairs ≠ [] →
    (insert_rows_go plugin t pairs sl arn).requests.map (fun q => q.suppress_log) =
      sl :: List.replicate (pairs.length - 1) true
  | (row, resp) :: rest, sl, arn, _ => by
    rw [insert_rows_go]
    dsimp only []
    cases rest with
    | nil => rfl
    | cons b bs =>
      rw [List.map_cons]
      rw [insert_rows_go_suppress plugin t (b :: bs) true
        (if arn = false ∧ resp.status_code = 403 then true else arn) (by simp)]
      rfl

theorem update_rows_go_rows (plugin t id : String) :
    ∀ (pairs : List (Row × Response)) (sl arn : Bool),
    (∀ p ∈ pairs, (lookupCell p.1 id).isSome = true) →
    (update_rows_go plugin t id pairs sl arn).rows =
      .ok (pairs.map (fun p => annotate_row p.1 p.2))
  | [], _, _, _ => rfl
  | (row, resp) :: rest, sl, arn, hp => by
    obtain ⟨v, hv⟩ := Option.isSome_iff_exists.mp (hp (row, resp) (by simp))
    dsimp only [] at hv
    rw [update_rows_go]
    dsimp only []
    rw [hv]
    dsimp only []
    rw [update_rows_go_rows plugin t id rest true
      (if resp.status_code = 403 ∧ arn = false then true else arn)
      (fun p hmem => hp p (List.mem_cons_of_mem _ hmem))]
    rfl

theorem update_rows_go_suppress (plugin t id : String) :
    ∀ (pairs : List (Row × Response)) (sl arn : Bool), pairs ≠ [] →
    (∀ p ∈ pairs, (lookupCell p.1 id).isSome = true) →
    (update_rows_go plugin t id pairs sl arn).requests.map (fun q => q.suppress_log) =
      sl :: List.replicate (pairs.length - 1) true
  | (row, resp) :: rest, sl, arn, _, hp => by
    obtain ⟨v, hv⟩ := Option.isSome_iff_exists.mp (hp (row, resp) (by simp))
    dsimp only [] at hv
    rw [update_rows_go]
    dsimp only []
    rw [hv]
    dsimp only []
    cases rest with
    | nil => rfl
    | cons b bs =>
      rw [List.map_cons]
      rw [update_rows_go_suppress plugin t id (b :: bs) true
        (if resp.status_code = 403 ∧ arn = false then true else arn) (by simp)
        (fun p hmem => hp p (List.mem_cons_of_mem _ hmem))]
      rfl

theorem delete_rows_go_rows (plugin t id : String) :
    ∀ (pairs : List (Row × Response)) (sl arn : Bool),
    (∀ p ∈ pairs, (lookupCell p.1 id).isSome = true) →
    (delete_rows_go plugin t id pairs sl arn).rows =
      .ok (pairs.map (fun p => annotate_row p.1 p.2))
  | [], _, _, _ => rfl
  | (row, resp) :: rest, sl, arn, hp => by
    obtain ⟨v, hv⟩ := Option.isSome_iff_exists.mp (hp (row, resp) (by simp))
    dsimp only [] at hv
    rw [delete_rows_go]
    dsimp only []
    rw [hv]
    dsimp only []
    rw [delete_rows_go_rows plugin t id rest true
      (if resp.status_code = 403 ∧ arn = false then true else arn)
      (fun p hmem => hp p (List.mem_cons_of_mem _ hmem))]
    rfl

theorem delete_rows_go_suppress (plugin t id : String) :
    ∀ (pairs : List (Row × Response)) (sl arn : Bool), pairs ≠ [] →
    (∀ p ∈ pairs, (lookupCell p.1 id).isSome = true) →
    (delete_rows_go plugin t id pairs sl arn).requests.map (fun q => q.suppress_log) =
      sl :: List.replicate (pairs.length - 1) true
  | (row, resp) :: rest, sl, arn, _, hp => by
    obtain ⟨v, hv⟩ := Option.isSome_iff_exists.mp (hp (row, resp) (by simp))
    dsimp only [] at hv
    rw [delete_rows_go]
    dsimp only []
    rw [hv]
    dsimp only []
    cases rest with
    | nil => rfl
    | cons b bs =>
      rw [List.map_cons]
      rw [delete_rows_go_suppress plugin t id (b :: bs) true
        (if resp.status_code = 403 ∧ arn = false then true else arn) (by simp)
        (fun p hmem => hp p (List.mem_cons_of_mem _ hmem))]
      rfl

/-- Claim C1 (code_bug): `table_get_record_count` parses the response body
(api.py:565) before checking the status code (api.py:568), so a request
that completes with an unsuccessful status and an unparseable body
propagates the JSON decode exception to the caller instead of returning the
documented default 0. -/
theorem count_json_decode_error_bug :
    (table_get_record_count true "students" ⟨500, "Internal Server Error page", none⟩).1 =
      .error "JSONDecodeError" ∧
    (table_get_record_count true "students" ⟨500, "Internal Server Error page", some none⟩).1 =
      .ok 0 := by
  constructor <;> rfl

/-- Claim C10: on a connected client, a delete response with status 403
reaches no return statement of table_delete_record (api.py:804-824), so the
function yields Python None — neither True nor False. -/
theorem delete_record_403_returns_none :
    (table_delete_record true "plug" "students"
      "1" ⟨403, "forbidden", some [[("resource", "T"), ("field", "F")]]⟩).1 = none := rfl

/-- Counterexample to claim C3: the same (table, field) error entry
appearing twice in a 403 errors collection yields two identical directive
strings — _access_requests_parse (api.py:116-149) sorts but never
deduplicates. -/
theorem access_requests_duplicate_cx :
    (access_requests_parse
        ⟨403, "forbidden", some [[("resource", "T"), ("field", "F")],
                                 [("resource", "T"), ("field", "F")]]⟩ true).1 =
      [directive_str "T" "F" "ViewOnly", directive_str "T" "F" "ViewOnly"] := by
  decide

/-- Claim C3 as amended: for a 403 response whose error entries all parse,
the derived directive list is lexicographically sorted (Python code-point
order) and is a permutation of one directive per error entry — duplicated
entries therefore yield duplicated directives; the list is not
deduplicated. -/
theorem access_requests_sorted_not_deduped (resp : Response) (ro : Bool)
    (entries : List (List (String × String)))
    (h403 : resp.status_code = 403) (hj : resp.errors_json = some entries)
    (hwf : entries.all entry_wf = true) :
    List.Sorted py_str_le (access_requests_parse resp ro).1 ∧
    List.Perm (access_requests_parse resp ro).1
      (entries.map (mk_directive (if ro then "ViewOnly" else "FullAccess"))) ∧
    (access_requests_parse resp ro).2 = [] := by
  haveI : IsTotal String py_str_le := ⟨fun a b => chars_le_total a.data b.data⟩
  haveI : IsTrans String py_str_le :=
    ⟨fun a b c hab hbc => chars_le_trans a.data b.data c.data hab hbc⟩
  have hloop := directives_loop_eq (if ro then "ViewOnly" else "FullAccess") entries
  rw [takeWhile_eq_self_of_all entry_wf entries hwf, hwf] at hloop
  simp only [access_requests_parse, if_pos h403, hj, hloop]
  refine ⟨List.sorted_insertionSort py_str_le _, ?_, rfl⟩
  exact List.perm_insertionSort py_str_le _

/-- Witness for access_requests_sorted_not_deduped at a concrete 403
response with two distinct entries. -/
theorem access_requests_sorted_not_deduped_witness :
    List.Sorted py_str_le (access_requests_parse
      ⟨403, "forbidden", some [[("resource", "B"), ("field", "X")],
                               [("resource", "A"), ("field", "Y")]]⟩ true).1 ∧
    List.Perm (access_requests_parse
      ⟨403, "forbidden", some [[("resource", "B"), ("field", "X")],
                               [("resource", "A"), ("field", "Y")]]⟩ true).1
      ([[("resource", "B"), ("field", "X")], [("resource", "A"), ("field", "Y")]].map
        (mk_directive (if true then "ViewOnly" else "FullAccess"))) ∧
    (access_requests_parse
      ⟨403, "forbidden", some [[("resource", "B"), ("field", "X")],
                               [("resource", "A"), ("field", "Y")]]⟩ true).2 = [] :=
  access_requests_sorted_not_deduped _ true _ rfl rfl (by decide)

/-- Counterexample to claim C8: a 403 body whose second error entry lacks
the `field` key makes the extraction loop raise after the first entry was
appended; the caught failure is logged but the partially built
single-directive list is returned, not an empty list. -/
theorem parse_failure_partial_list_cx :
    access_requests_parse
        ⟨403, "forbidden", some [[("resource", "T"), ("field", "F")], [("resource", "U")]]⟩
        true =
      ([directive_str "T" "F" "ViewOnly"], [(LogLevel.error, "Error parsing access requests")]) := by
  decide

/-- Claim C8 as amended: a parse failure while extracting directives from a
403 body is logged and never propagates; if the body itself is unparseable
(or has no errors collection) the directive list is empty, but if the
failure occurs mid-loop the directives built from the entries before the
first malformed one are kept (sorted), so the list can be partially
built. -/
theorem parse_failure_directives (resp : Response) (ro : Bool)
    (h403 : resp.status_code = 403) :
    (resp.errors_json = none →
      access_requests_parse resp ro = ([], [(LogLevel.error, "Error parsing access requests")])) ∧
    (∀ entries, resp.errors_json = some entries → entries.all entry_wf = false →
      access_requests_parse resp ro =
        (sortStrings ((entries.takeWhile entry_wf).map
            (mk_directive (if ro then "ViewOnly" else "FullAccess"))),
          [(LogLevel.error, "Error parsing access requests")])) := by
  constructor
  · intro hj
    simp [access_requests_parse, if_pos h403, hj, sortStrings]
  · intro entries hj hwf
    have hloop := directives_loop_eq (if ro then "ViewOnly" else "FullAccess") entries
    rw [hwf] at hloop
    simp [access_requests_parse, if_pos h403, hj, hloop]

/-- Witness for parse_failure_directives at a concrete 403 response whose
second entry is malformed. -/
theorem parse_failure_directives_witness :
    access_requests_parse
        ⟨403, "x", some [[("resource", "T"), ("field", "F")], [("resource", "U")]]⟩ true =
      (sortStrings (([[("resource", "T"), ("field", "F")],
          [("resource", "U")]].takeWhile entry_wf).map
          (mk_directive (if true then "ViewOnly" else "FullAccess"))),
        [(LogLevel.error, "Error parsing access requests")]) :=
  (parse_failure_directives ⟨403, "x", some [[("resource", "T"), ("field", "F")],
      [("resource", "U")]]⟩ true rfl).2 _ rfl (by decide)

/-- Counterexample to claim C6: in table_update_records the input is passed
through the DataFrame-wide fillna (api.py:720) before rows are serialized, so a
null-valued column is not dropped from the update body — it is sent as a
present empty string, unlike the insert path which drops it via dropna. -/
theorem update_null_not_dropped_cx :
    update_row_payload "t" "recid"
        (fillna_row [("recid", CellVal.vstr "7"), ("score", CellVal.vnull)]) =
      "\x7b\"tables\":\x7b\"t\":\x7b\"score\":\"\"\x7d\x7d\x7d" ∧
    insert_row_payload "t" [("recid", CellVal.vstr "7"), ("score", CellVal.vnull)] =
      "\x7b\"tables\":\x7b\"t\":\x7b\"recid\":\"7\"\x7d\x7d\x7d" ∧
    update_row_payload "t" "recid"
        (fillna_row [("recid", CellVal.vstr "7"), ("score", CellVal.vnull)]) ≠
      tables_wrap "t" (row_to_json
        (drop_key (dropna_row [("recid", CellVal.vstr "7"), ("score", CellVal.vnull)]) "recid")) := by
  refine ⟨rfl, rfl, ?_⟩
  decide

/-- Claim C6 as amended: for insert, columns whose value is null are dropped
from the serialized body and a present empty string is preserved; for
update, null values are first replaced by empty strings (so they remain in
the body as "") and the identifier column is dropped from the body; the
remaining pairs are wrapped under the tables/table object. -/
theorem write_payload_encoding (table_name id_column_name : String) (row : Row) :
    insert_row_payload table_name row =
      tables_wrap table_name (row_to_json (row.filter (fun p => p.2 ≠ CellVal.vnull))) ∧
    update_row_payload table_name id_column_name (fillna_row row) =
      tables_wrap table_name (row_to_json
        ((row.filter (fun p => p.1 ≠ id_column_name)).map (fun p => (p.1, fillna_cell p.2)))) ∧
    (∀ (s : String) (rest : Row),
      dropna_row ((s, CellVal.vstr "") :: rest) = (s, CellVal.vstr "") :: dropna_row rest) := by
  refine ⟨?_, ?_, ?_⟩
  · rw [insert_row_payload, dropna_row_eq_filter]
  · rw [update_row_payload, drop_key_fillna_row]
  · intro s rest
    simp [dropna_row]

theorem isEmpty_false_of_ne_nil {α : Type} {l : List α} (h : l ≠ []) :
    l.isEmpty = false := by
  cases l with
  | nil => exact absurd rfl h
  | cons a t => rfl

theorem mem_of_contains_true {l : List String} {a : String}
    (h : l.contains a = true) : a ∈ l := by
  simpa using h

/-- Claim C2: a non-empty N-row record set submitted to
table_insert_records, table_update_records or table_delete_records on a
connected client yields a result set of exactly N rows in input order
(update rows pass through fillna first), each annotated with populated
response_status_code and response_text columns. -/
theorem bulk_ops_row_annotation (plugin t id : String) (records : DataFrame)
    (responses : List Response)
    (hne : records.rows ≠ []) (hlen : responses.length = records.rows.length)
    (hidc : records.cols.contains id = true)
    (hrect : ∀ r ∈ records.rows, r.map Prod.fst = records.cols) :
    ((table_insert_records true plugin t records responses).result =
      .ok ⟨annotate_cols records.cols,
        (records.rows.zip responses).map (fun p => annotate_row p.1 p.2)⟩) ∧
    ((table_update_records true plugin t id records responses).result =
      .ok ⟨annotate_cols records.cols,
        ((records.rows.map fillna_row).zip responses).map (fun p => annotate_row p.1 p.2)⟩) ∧
    ((table_delete_records true plugin t id records responses).result =
      .ok ⟨annotate_cols records.cols,
        (records.rows.zip responses).map (fun p => annotate_row p.1 p.2)⟩) ∧
    ((records.rows.zip responses).map (fun p => annotate_row p.1 p.2)).length =
      records.rows.length ∧
    (((records.rows.map fillna_row).zip responses).map (fun p => annotate_row p.1 p.2)).length =
      records.rows.length ∧
    (∀ (r : Row) (resp : Response),
      row_status (annotate_row r resp) = some (CellVal.vnum (Int.ofNat resp.status_code)) ∧
      lookupCell (annotate_row r resp) "response_text" = some (CellVal.vstr resp.text)) := by
  have hEmpty : records.rows.isEmpty = false := isEmpty_false_of_ne_nil hne
  have hmemcols : id ∈ records.cols := mem_of_contains_true hidc
  have hidsome : ∀ r ∈ records.rows, (lookupCell r id).isSome = true := by
    intro r hr
    exact lookupCell_isSome id r (by rw [hrect r hr]; exact hmemcols)
  have hzip : ∀ p ∈ records.rows.zip responses, (lookupCell p.1 id).isSome = true := by
    intro p hp
    exact hidsome p.1 (List.of_mem_zip hp).1
  have hzipf : ∀ p ∈ (records.rows.map fillna_row).zip responses,
      (lookupCell p.1 id).isSome = true := by
    intro p hp
    obtain ⟨r, hr, hrp⟩ := List.mem_map.mp (List.of_mem_zip hp).1
    rw [← hrp, lookupCell_fillna]
    have := hidsome r hr
    simp [Option.isSome_map]
    simpa using this
  refine ⟨?_, ?_, ?_, ?_, ?_, ?_⟩
  · rw [table_insert_records]
    dsimp only []
    rw [if_neg (by decide), if_neg (by simp [hEmpty])]
    rw [insert_rows_go_rows plugin t (records.rows.zip responses) false false]
  · rw [table_update_records]
    dsimp only []
    rw [if_neg (by decide), if_neg (by simp [hEmpty]), if_neg (by simp [hmemcols])]
    rw [update_rows_go_rows plugin t id ((records.rows.map fillna_row).zip responses)
      false false hzipf]
  · rw [table_delete_records]
    dsimp only []
    rw [if_neg (by decide), if_neg (by simp [hEmpty])]
    rw [delete_rows_go_rows plugin t id (records.rows.zip responses) false false hzip]
  · rw [List.length_map, List.length_zip, hlen, Nat.min_self]
  · rw [List.length_map, List.length_zip, List.length_map, hlen, Nat.min_self]
  · intro r resp
    exact ⟨annotate_row_status r resp, annotate_row_text r resp⟩

/-- Witness for bulk_ops_row_annotation on a concrete two-row record set. -/
theorem bulk_ops_row_annotation_witness :
    ((table_insert_records true "plug" "t"
        ⟨["recid"], [[("recid", CellVal.vstr "1")], [("recid", CellVal.vstr "2")]]⟩
        [⟨200, "ok", none⟩, ⟨500, "bad", none⟩]).result =
      .ok ⟨annotate_cols ["recid"],
        ([[("recid", CellVal.vstr "1")], [("recid", CellVal.vstr "2")]].zip
          [⟨200, "ok", none⟩, ⟨500, "bad", none⟩]).map (fun p => annotate_row p.1 p.2)⟩) ∧
    ((table_update_records true "plug" "t" "recid"
        ⟨["recid"], [[("recid", CellVal.vstr "1")], [("recid", CellVal.vstr "2")]]⟩
        [⟨200, "ok", none⟩, ⟨500, "bad", none⟩]).result =
      .ok ⟨annotate_cols ["recid"],
        (([[("recid", CellVal.vstr "1")], [("recid", CellVal.vstr "2")]].map fillna_row).zip
          [⟨200, "ok", none⟩, ⟨500, "bad", none⟩]).map (fun p => annotate_row p.1 p.2)⟩) ∧
    (([[("recid", CellVal.vstr "1")], [("recid", CellVal.vstr "2")]].zip
        [⟨200, "ok", none⟩, ⟨500, "bad", none⟩]).map
        (fun p => annotate_row p.1 p.2)).length = 2 := by
  have h := bulk_ops_row_annotation "plug" "t" "recid"
    ⟨["recid"], [[("recid", CellVal.vstr "1")], [("recid", CellVal.vstr "2")]]⟩
    [⟨200, "ok", none⟩, ⟨500, "bad", none⟩]
    (by decide) (by decide) (by decide) (by decide)
  exact ⟨h.1, h.2.1, h.2.2.2.1⟩

/-- Counterexample to claim C5: in a two-row insert batch whose first row
gets a 200 and whose second row gets a 403, the request of the second row is
dispatched with suppress_log = true even though no earlier row encountered
a 403, and the batch finishes with nothing logged at error level — the 403
and its access-request directives are left unlogged. -/
theorem suppress_log_after_first_row_cx :
    ((table_insert_records true "plug" "t"
        ⟨["a"], [[("a", CellVal.vstr "1")], [("a", CellVal.vstr "2")]]⟩
        [⟨200, "ok", none⟩,
         ⟨403, "forbidden", some [[("resource", "T"), ("field", "F")]]⟩]).requests.map
      (fun q => q.suppress_log) = [false, true]) ∧
    ((table_insert_records true "plug" "t"
        ⟨["a"], [[("a", CellVal.vstr "1")], [("a", CellVal.vstr "2")]]⟩
        [⟨200, "ok", none⟩,
         ⟨403, "forbidden", some [[("resource", "T"), ("field", "F")]]⟩]).logs.filter
      (fun e => e.1 = LogLevel.error) = []) ∧
    ((200 : Nat) ≠ 403) := by
  refine ⟨rfl, rfl, by decide⟩

/-- Claim C5 as amended: in every bulk insert/update/delete batch, only the
first row of the batch is dispatched with suppressLog = false; every
subsequent row passes suppressLog = true regardless of which rows
encountered a 403 (the flag is set after the first request, not after the
first 403).  Consequently a suppressed 403 row adds no aggregated
access-request error log, while an unsuppressed 403 row with directives
does. -/
theorem suppress_log_pattern (plugin t id : String) (records : DataFrame)
    (responses : List Response)
    (hne : records.rows ≠ []) (hlen : responses.length = records.rows.length)
    (hidc : records.cols.contains id = true)
    (hrect : ∀ r ∈ records.rows, r.map Prod.fst = records.cols) :
    ((table_insert_records true plugin t records responses).requests.map
      (fun q => q.suppress_log) = false :: List.replicate (records.rows.length - 1) true) ∧
    ((table_update_records true plugin t id records responses).requests.map
      (fun q => q.suppress_log) = false :: List.replicate (records.rows.length - 1) true) ∧
    ((table_delete_records true plugin t id records responses).requests.map
      (fun q => q.suppress_log) = false :: List.replicate (records.rows.length - 1) true) ∧
    (∀ (req : Request) (s : Response), s.status_code = 403 → req.suppress_log = true →
      (request_dispatch plugin req s).2 = (access_requests_parse s req.read_only).2) ∧
    (∀ (req : Request) (s : Response), s.status_code = 403 → req.suppress_log = false →
      (access_requests_parse s req.read_only).1 ≠ [] →
      (request_dispatch plugin req s).2 = (access_requests_parse s req.read_only).2 ++
        [(LogLevel.error, "Plugin " ++ plugin ++
          " does not have access to one or more of the requested fields.\n" ++
          "Access requests to add to the plugin:" ++
          String.join (access_requests_parse s req.read_only).1)]) := by
  have hEmpty : records.rows.isEmpty = false := isEmpty_false_of_ne_nil hne
  have hmemcols : id ∈ records.cols := mem_of_contains_true hidc
  have hidsome : ∀ r ∈ records.rows, (lookupCell r id).isSome = true := by
    intro r hr
    exact lookupCell_isSome id r (by rw [hrect r hr]; exact hmemcols)
  have hzip : ∀ p ∈ records.rows.zip responses, (lookupCell p.1 id).isSome = true := by
    intro p hp
    exact hidsome p.1 (List.of_mem_zip hp).1
  have hzipf : ∀ p ∈ (records.rows.map fillna_row).zip responses,
      (lookupCell p.1 id).isSome = true := by
    intro p hp
    obtain ⟨r, hr, hrp⟩ := List.mem_map.mp (List.of_mem_zip hp).1
    rw [← hrp, lookupCell_fillna]
    have := hidsome r hr
    simp [Option.isSome_map]
    simpa using this
  have hzne : records.rows.zip responses ≠ [] := by
    cases hr : records.rows with
    | nil => exact absurd hr hne
    | cons a l =>
      rw [hr] at hlen
      cases hs : responses with
      | nil => rw [hs] at hlen; simp at hlen
      | cons b bs => simp [hr, hs]
  have hzfne : (records.rows.map fillna_row).zip responses ≠ [] := by
    cases hr : records.rows with
    | nil => exact absurd hr hne
    | cons a l =>
      rw [hr] at hlen
      cases hs : responses with
      | nil => rw [hs] at hlen; simp at hlen
      | cons b bs => simp [hr, hs]
  have hzlen : (records.rows.zip responses).length = records.rows.length := by
    rw [List.length_zip, hlen, Nat.min_self]
  have hzflen : ((records.rows.map fillna_row).zip responses).length = records.rows.length := by
    rw [List.length_zip, List.length_map, hlen, Nat.min_self]
  refine ⟨?_, ?_, ?_, ?_, ?_⟩
  · rw [table_insert_records]
    dsimp only []
    rw [if_neg (by decide), if_neg (by simp [hEmpty])]
    rw [insert_rows_go_rows plugin t (records.rows.zip responses) false false]
    dsimp only []
    rw [insert_rows_go_suppress plugin t (records.rows.zip responses) false false hzne, hzlen]
  · rw [table_update_records]
    dsimp only []
    rw [if_neg (by decide), if_neg (by simp [hEmpty]), if_neg (by simp [hmemcols])]
    rw [update_rows_go_rows plugin t id ((records.rows.map fillna_row).zip responses)
      false false hzipf]
    dsimp only []
    rw [update_rows_go_suppress plugin t id ((records.rows.map fillna_row).zip responses)
      false false hzfne hzipf, hzflen]
  · rw [table_delete_records]
    dsimp only []
    rw [if_neg (by decide), if_neg (by simp [hEmpty])]
    rw [delete_rows_go_rows plugin t id (records.rows.zip responses) false false hzip]
    dsimp only []
    rw [delete_rows_go_suppress plugin t id (records.rows.zip responses) false false hzne hzip,
      hzlen]
  · intro req s h403 hsl
    rw [request_dispatch, if_pos h403]
    dsimp only []
    rw [if_neg (by simp [hsl]), List.append_nil]
  · intro req s h403 hsl hne2
    rw [request_dispatch, if_pos h403]
    dsimp only []
    rw [if_pos ⟨hne2, hsl⟩]

/-- Witness for suppress_log_pattern on a concrete two-row batch with a 403
on the second row. -/
theorem suppress_log_pattern_witness :
    ((table_insert_records true "plug" "t"
        ⟨["recid"], [[("recid", CellVal.vstr "1")], [("recid", CellVal.vstr "2")]]⟩
        [⟨200, "ok", none⟩,
         ⟨403, "forbidden", some [[("resource", "T"), ("field", "F")]]⟩]).requests.map
      (fun q => q.suppress_log) = false :: List.replicate 1 true) ∧
    ((table_delete_records true "plug" "t" "recid"
        ⟨["recid"], [[("recid", CellVal.vstr "1")], [("recid", CellVal.vstr "2")]]⟩
        [⟨200, "ok", none⟩,
         ⟨403, "forbidden", some [[("resource", "T"), ("field", "F")]]⟩]).requests.map
      (fun q => q.suppress_log) = false :: List.replicate 1 true) := by
  have h := suppress_log_pattern "plug" "t" "recid"
    ⟨["recid"], [[("recid", CellVal.vstr "1")], [("recid", CellVal.vstr "2")]]⟩
    [⟨200, "ok", none⟩, ⟨403, "forbidden", some [[("resource", "T"), ("field", "F")]]⟩]
    (by decide) (by decide) (by decide) (by decide)
  exact ⟨h.1, h.2.2.1⟩

/-- Counterexample to claim C4: a delete whose record set lacks the
designated identifier column is not rejected with a logged error and an
empty record set — table_delete_records performs no schema check
(api.py:826-889), so reading row[id_column_name] raises KeyError, which
propagates; nothing is logged at error level and no record set is
returned. -/
theorem delete_missing_id_cx :
    (table_delete_records true "plug" "t" "recid"
        ⟨["a"], [[("a", CellVal.vstr "1")]]⟩ [⟨204, "", none⟩]).result =
      .error ("KeyError: " ++ "recid") ∧
    (table_delete_records true "plug" "t" "recid"
        ⟨["a"], [[("a", CellVal.vstr "1")]]⟩ [⟨204, "", none⟩]).requests = [] ∧
    (table_delete_records true "plug" "t" "recid"
        ⟨["a"], [[("a", CellVal.vstr "1")]]⟩ [⟨204, "", none⟩]).logs.filter
      (fun e => e.1 = LogLevel.error) = [] :=
  ⟨rfl, rfl, rfl⟩

/-- Claim C4 as amended: when the designated identifier column is absent
from the input schema, table_update_records rejects the operation before
any network call, logs an error and returns an empty record set; but
table_delete_records performs no such check — it raises a KeyError before
any network call, with no error logged and no record set returned. -/
theorem missing_id_column_behavior (plugin t id : String) (records : DataFrame)
    (responses : List Response)
    (hne : records.rows ≠ []) (hlen : responses.length = records.rows.length)
    (hidc : records.cols.contains id = false)
    (hrect : ∀ r ∈ records.rows, r.map Prod.fst = records.cols) :
    (table_update_records true plugin t id records responses).result = .ok empty_df ∧
    (table_update_records true plugin t id records responses).requests = [] ∧
    (table_update_records true plugin t id records responses).logs =
      [(LogLevel.error, "ID column " ++ id ++ " not found in records. No records updated.")] ∧
    (table_delete_records true plugin t id records responses).result =
      .error ("KeyError: " ++ id) ∧
    (table_delete_records true plugin t id records responses).requests = [] ∧
    (table_delete_records true plugin t id records responses).logs =
      [(LogLevel.debug, "Deleting records from " ++ t)] := by
  have hEmpty : records.rows.isEmpty = false := isEmpty_false_of_ne_nil hne
  have hnotmem : id ∉ records.cols := by
    intro hm
    have hc : records.cols.contains id = true := by simpa using hm
    have h2 := hidc.symm.trans hc
    exact Bool.noConfusion h2
  have hu : table_update_records true plugin t id records responses =
      ⟨.ok empty_df, [],
        [(LogLevel.error, "ID column " ++ id ++ " not found in records. No records updated.")]⟩ := by
    rw [table_update_records]
    dsimp only []
    rw [if_neg (by decide), if_neg (by simp [hEmpty]), if_pos hidc]
  have hd : table_delete_records true plugin t id records responses =
      ⟨.error ("KeyError: " ++ id), [], [(LogLevel.debug, "Deleting records from " ++ t)]⟩ := by
    cases hr : records.rows with
    | nil => exact absurd hr hne
    | cons r0 rtl =>
      rw [hr] at hlen
      cases hs : responses with
      | nil =>
        rw [hs] at hlen
        simp at hlen
      | cons s0 stl =>
        have hnone : lookupCell r0 id = none := by
          apply lookupCell_eq_none
          rw [hrect r0 (by rw [hr]; exact List.mem_cons_self r0 rtl)]
          exact hnotmem
        rw [table_delete_records]
        dsimp only []
        rw [hr, if_neg (by decide), if_neg (by simp), List.zip_cons_cons,
          delete_rows_go]
        dsimp only []
        rw [hnone]
  exact ⟨by rw [hu], by rw [hu], by rw [hu], by rw [hd], by rw [hd], by rw [hd]⟩

/-- Witness for missing_id_column_behavior on a concrete one-row record set
whose only column is not the identifier column. -/
theorem missing_id_column_behavior_witness :
    (table_update_records true "plug" "t" "recid"
        ⟨["a"], [[("a", CellVal.vstr "1")]]⟩ [⟨204, "", none⟩]).result = .ok empty_df ∧
    (table_update_records true "plug" "t" "recid"
        ⟨["a"], [[("a", CellVal.vstr "1")]]⟩ [⟨204, "", none⟩]).requests = [] := by
  have h := missing_id_column_behavior "plug" "t" "recid"
    ⟨["a"], [[("a", CellVal.vstr "1")]]⟩ [⟨204, "", none⟩]
    (by decide) (by decide) (by decide) (by decide)
  exact ⟨h.1, h.2.1⟩

theorem filter_ext {α : Type} (p q : α → Bool) (h : ∀ a, p a = q a) :
    ∀ l : List α, l.filter p = l.filter q
  | [] => rfl
  | a :: l => by rw [List.filter_cons, List.filter_cons, h a, filter_ext p q h l]

theorem delete_failed_eq (results : List Row) :
    delete_failed_rows results = results.filter
      (fun r => row_status r ≠ some (CellVal.vnum 204) ∧
        row_status r ≠ some (CellVal.vnum 404)) := by
  unfold delete_failed_rows delete_errors_rows
  rw [List.filter_filter]
  apply filter_ext
  intro r
  by_cases h1 : row_status r = some (CellVal.vnum 204)
  · rw [h1]
    decide
  · by_cases h2 : row_status r = some (CellVal.vnum 404)
    · rw [h2]
      decide
    · simp [h1, h2]

theorem delete_not_found_eq (results : List Row) :
    delete_not_found_rows results = results.filter
      (fun r => row_status r = some (CellVal.vnum 404)) := by
  unfold delete_not_found_rows delete_errors_rows
  rw [List.filter_filter]
  apply filter_ext
  intro r
  by_cases h2 : row_status r = some (CellVal.vnum 404)
  · rw [h2]
    decide
  · by_cases h1 : row_status r = some (CellVal.vnum 204)
    · rw [h1]
      decide
    · simp [h1, h2]

theorem exists_mem_zip_right {α β : Type} (P : β → Prop) :
    ∀ (l1 : List α) (l2 : List β), l1.length = l2.length → (∃ b ∈ l2, P b) →
      ∃ p ∈ l1.zip l2, P p.2
  | [], l2, hlen, hex => by
    obtain ⟨b, hb, _⟩ := hex
    rw [List.length_nil] at hlen
    rw [List.eq_nil_of_length_eq_zero hlen.symm] at hb
    exact absurd hb (List.not_mem_nil b)
  | _ :: _, [], _, hex => by
    obtain ⟨b, hb, _⟩ := hex
    exact absurd hb (List.not_mem_nil b)
  | a :: l1, b :: l2, hlen, hex => by
    obtain ⟨c, hc, hPc⟩ := hex
    rcases List.mem_cons.mp hc with h | h
    · refine ⟨(a, b), ?_, ?_⟩
      · rw [List.zip_cons_cons]
        exact List.mem_cons_self _ _
      · rw [h] at hPc
        exact hPc
    · obtain ⟨p, hp, hPp⟩ := exists_mem_zip_right P l1 l2 (by simpa using hlen) ⟨c, h, hPc⟩
      refine ⟨p, ?_, hPp⟩
      rw [List.zip_cons_cons]
      exact List.mem_cons_of_mem _ hp

/-- Claim C7: a delete receiving 404 is treated as success —
table_delete_record returns true on a 404 response, and table_delete_records
partitions 404 rows (not_found) apart from genuine failures (any status
other than 204 or 404) and reports the not-found rows at debug level. -/
theorem delete_404_success (plugin t record_id id : String) (resp : Response)
    (records : DataFrame) (responses : List Response)
    (h404 : resp.status_code = 404)
    (hne : records.rows ≠ []) (hlen : responses.length = records.rows.length)
    (hidc : records.cols.contains id = true)
    (hrect : ∀ r ∈ records.rows, r.map Prod.fst = records.cols)
    (hs404 : ∃ s ∈ responses, s.status_code = 404) :
    (table_delete_record true plugin t record_id resp).1 = some true ∧
    (∀ results : List Row,
      delete_failed_rows results = results.filter
        (fun r => row_status r ≠ some (CellVal.vnum 204) ∧
          row_status r ≠ some (CellVal.vnum 404)) ∧
      delete_not_found_rows results = results.filter
        (fun r => row_status r = some (CellVal.vnum 404))) ∧
    (LogLevel.debug, "Records not found in " ++ t) ∈
      (table_delete_records true plugin t id records responses).logs := by
  have hEmpty : records.rows.isEmpty = false := isEmpty_false_of_ne_nil hne
  have hmemcols : id ∈ records.cols := mem_of_contains_true hidc
  have hzip : ∀ p ∈ records.rows.zip responses, (lookupCell p.1 id).isSome = true := by
    intro p hp
    exact lookupCell_isSome id p.1
      (by rw [hrect p.1 (List.of_mem_zip hp).1]; exact hmemcols)
  refine ⟨?_, fun results => ⟨delete_failed_eq results, delete_not_found_eq results⟩, ?_⟩
  · rw [table_delete_record, h404]
    dsimp only []
    rw [if_neg (by decide), if_neg (by decide), if_pos rfl]
  · obtain ⟨p, hpz, hp404⟩ := exists_mem_zip_right (fun s => s.status_code = 404)
      records.rows responses hlen.symm hs404
    have hrowmem : annotate_row p.1 p.2 ∈
        (records.rows.zip responses).map (fun q => annotate_row q.1 q.2) :=
      List.mem_map_of_mem _ hpz
    have hstatus : row_status (annotate_row p.1 p.2) = some (CellVal.vnum 404) := by
      rw [annotate_row_status, hp404]
      rfl
    have hnfmem : annotate_row p.1 p.2 ∈ delete_not_found_rows
        ((records.rows.zip responses).map (fun q => annotate_row q.1 q.2)) := by
      rw [delete_not_found_eq]
      exact List.mem_filter.mpr ⟨hrowmem, by simp [hstatus]⟩
    have hnf : (delete_not_found_rows
        ((records.rows.zip responses).map (fun q => annotate_row q.1 q.2))).isEmpty = false :=
      isEmpty_false_of_ne_nil (List.ne_nil_of_mem hnfmem)
    rw [table_delete_records]
    dsimp only []
    rw [if_neg (by decide), if_neg (by simp [hEmpty])]
    rw [delete_rows_go_rows plugin t id (records.rows.zip responses) false false hzip]
    dsimp only []
    rw [if_pos hnf]
    simp

/-- Witness for delete_404_success on a concrete one-row delete that
receives a 404. -/
theorem delete_404_success_witness :
    (table_delete_record true "plug" "t" "5" ⟨404, "nf", none⟩).1 = some true ∧
    (LogLevel.debug, "Records not found in " ++ "t") ∈
      (table_delete_records true "plug" "t" "recid"
        ⟨["recid"], [[("recid", CellVal.vstr "5")]]⟩ [⟨404, "nf", none⟩]).logs := by
  have h := delete_404_success "plug" "t" "5" "recid" ⟨404, "nf", none⟩
    ⟨["recid"], [[("recid", CellVal.vstr "5")]]⟩ [⟨404, "nf", none⟩]
    rfl (by decide) (by decide) (by decide) (by decide)
    ⟨⟨404, "nf", none⟩, by simp, rfl⟩
  exact ⟨h.1, h.2.2⟩

/-- Claim C9: pq_run targets /ws/schema/query/{prefix}.{name}?pagesize=0
when a non-empty namespace prefix is configured (bare name otherwise),
pagesize is always forced to 0, and non-empty parameters are serialized as
a JSON body on the POST. -/
theorem pq_run_request_shape (ns pq_name : String) (ps : List (String × String)) :
    (ns ≠ "" → (pq_run_request ns pq_name ps).resource =
      "/ws/schema/query/" ++ (ns ++ "." ++ pq_name) ++ "?pagesize=0") ∧
    (ns = "" → (pq_run_request ns pq_name ps).resource =
      "/ws/schema/query/" ++ pq_name ++ "?pagesize=0") ∧
    (ps ≠ [] → (pq_run_request ns pq_name ps).body = some (json_dumps_params ps)) ∧
    (ps = [] → (pq_run_request ns pq_name ps).body = none) ∧
    (pq_run_request ns pq_name ps).method = "post" := by
  have hres : (pq_run_request ns pq_name ps).resource =
      "/ws/schema/query/" ++ pq_full_name ns pq_name ++ "?pagesize=0" := by
    unfold pq_run_request
    by_cases hp : ps.length > 0 <;> simp [hp]
  have hm : (pq_run_request ns pq_name ps).method = "post" := by
    unfold pq_run_request
    by_cases hp : ps.length > 0 <;> simp [hp]
  refine ⟨fun h1 => ?_, fun h2 => ?_, fun h3 => ?_, fun h4 => ?_, hm⟩
  · rw [hres, pq_full_name, if_pos h1]
  · rw [hres, pq_full_name, if_neg (by simp [h2])]
  · have hp : ps.length > 0 := by
      cases ps with
      | nil => exact absurd rfl h3
      | cons a l => simp
    rw [pq_run_request, if_pos hp]
  · subst h4
    rfl

/-- Witness for pq_run_request_shape at the concrete example prefix
and query name. -/
theorem pq_run_request_shape_witness :
    (pq_run_request "com.vendor.attendance" "daily_totals" [("a", "1")]).resource =
      "/ws/schema/query/com.vendor.attendance.daily_totals?pagesize=0" ∧
    (pq_run_request "com.vendor.attendance" "daily_totals" [("a", "1")]).body =
      some (json_dumps_params [("a", "1")]) ∧
    (pq_run_request "" "daily_totals" []).resource =
      "/ws/schema/query/daily_totals?pagesize=0" ∧
    (pq_run_request "" "daily_totals" []).body = none := by
  refine ⟨?_, ?_, ?_, ?_⟩
  · exact (pq_run_request_shape "com.vendor.attendance" "daily_totals" [("a", "1")]).1
      (by decide)
  · exact (pq_run_request_shape "com.vendor.attendance" "daily_totals" [("a", "1")]).2.2.1
      (by decide)
  · exact (pq_run_request_shape "" "daily_totals" []).2.1 rfl
  · exact (pq_run_request_shape "" "daily_totals" []).2.2.2.1 rfl

end Psdh
